import Mathlib

/-!
# Shallow embedding of the AI trading bot position/risk logic

This file embeds the position-tracking and risk-management routines of
`ai_trading_bot.py` (class `AITradingBot`) as executable Lean definitions
over exact rationals, and proves the specification claims about them.

Python floats are modelled as `ℚ`; the arithmetic in the embedded routines
is only `+ - * /`, `min`/`max` and comparisons, so the rational semantics
mirrors the source expressions exactly.  Values that may be `None` / absent
dictionary keys are modelled with `Option`; a dictionary `.get(k, d)` read
becomes `Option.getD`.
-/

set_option autoImplicit false

namespace AITradingBot

/-- `MarketRegime` enum from `ai_trading_bot.py`. -/
inductive MarketRegime where
  | bull
  | bear
  | sideways
  | volatile
deriving DecidableEq, Repr

/-- `BUY` / `SELL` / `HOLD` actions of a `TradingDecision`. -/
inductive Action where
  | buy
  | sell
  | hold
deriving DecidableEq, Repr

/-- The `ai_parameters` section of the configuration returned by
`load_config`.  Each field is read from an environment variable with the
documented default; the embedding keeps them as parameters. -/
structure AIParameters where
  confidence_threshold : ℚ
  max_position_size_pct : ℚ
  min_position_size_pct : ℚ
  base_profit_target_pct : ℚ
  base_stop_loss_pct : ℚ
  max_positions_per_coin : ℕ
  max_total_exposure_pct : ℚ
  max_daily_loss_pct : ℚ
deriving DecidableEq, Repr

/-- The environment-variable defaults of `load_config`:
threshold 0.49, position size 15%/2%, base targets 3%/2%, 2 positions per
coin, 80% max exposure, 5% max daily loss. -/
def defaultParameters : AIParameters :=
  { confidence_threshold := 49/100
    max_position_size_pct := 15/100
    min_position_size_pct := 2/100
    base_profit_target_pct := 3/100
    base_stop_loss_pct := 2/100
    max_positions_per_coin := 2
    max_total_exposure_pct := 8/10
    max_daily_loss_pct := 5/100 }

/-- The regime multiplier table of `calculate_dynamic_targets`
(`{BULL: 1.3, BEAR: 0.7, SIDEWAYS: 1.0, VOLATILE: 1.2}.get(regime, 1.0)`;
the dictionary covers every constructor, so the `1.0` default is dead). -/
def regimeMultiplier : MarketRegime → ℚ
  | .bull => 13/10
  | .bear => 7/10
  | .sideways => 1
  | .volatile => 12/10

/-- `AITradingBot.calculate_dynamic_targets`.  Python reassigns the names
`profit_target` / `stop_loss`; the embedding numbers the rebindings. -/
def calculate_dynamic_targets (cfg : AIParameters) (confidence volatility : ℚ)
    (market_regime : MarketRegime) (riskReward : ℚ) : ℚ × ℚ :=
  let base_profit := cfg.base_profit_target_pct
  let base_stop := cfg.base_stop_loss_pct
  let confidence_multiplier := 1/2 + confidence * (3/2)
  let volatility_multiplier := 8/10 + volatility * 2
  let regime_multiplier := regimeMultiplier market_regime
  let risk_reward_multiplier := min (3/2) (max (1/2) (riskReward / 2))
  let profit_target := base_profit * confidence_multiplier * volatility_multiplier *
      regime_multiplier * risk_reward_multiplier
  let stop_loss := base_stop * confidence_multiplier * volatility_multiplier *
      regime_multiplier
  let profit_target2 := min (15/100) (max (2/100) profit_target)
  let stop_loss2 := min (8/100) (max (1/100) stop_loss)
  let profit_target3 := if profit_target2 ≤ stop_loss2 then stop_loss2 * (3/2)
    else profit_target2
  (profit_target3, stop_loss2)

/-- Shape of the final clamp-then-force step of `calculate_dynamic_targets`:
whatever the unclamped products are, the stop ends in `[0.01, 0.08]`, the
profit target ends in `[0.02, 0.15]`, and the profit target is strictly
above the stop. -/
lemma clamp_force_bounds (p s p2 s2 p3 : ℚ)
    (hp2 : p2 = min (15/100) (max (2/100) p))
    (hs2 : s2 = min (8/100) (max (1/100) s))
    (hp3 : p3 = if p2 ≤ s2 then s2 * (3/2) else p2) :
    s2 < p3 ∧ 1/100 ≤ s2 ∧ s2 ≤ 8/100 ∧ 2/100 ≤ p3 ∧ p3 ≤ 15/100 := by
  have hs1 : (1/100 : ℚ) ≤ s2 := hs2 ▸ le_min (by norm_num) (le_max_left _ _)
  have hs8 : s2 ≤ 8/100 := hs2 ▸ min_le_left _ _
  have hp1 : (2/100 : ℚ) ≤ p2 := hp2 ▸ le_min (by norm_num) (le_max_left _ _)
  have hp15 : p2 ≤ 15/100 := hp2 ▸ min_le_left _ _
  by_cases h : p2 ≤ s2
  · rw [hp3, if_pos h]
    refine ⟨by linarith, hs1, hs8, by linarith, by linarith⟩
  · rw [hp3, if_neg h]
    push_neg at h
    exact ⟨h, hs1, hs8, hp1, hp15⟩

/-- C1: for every input (in particular every combination inside the
documented ranges of confidence, volatility, regime and risk/reward ratio),
`calculate_dynamic_targets` returns `(profit_target_pct, stop_loss_pct)`
with the stop clamped to `[0.01, 0.08]`, the profit target inside
`[0.02, 0.15]`, and `profit_target_pct` strictly greater than
`stop_loss_pct` thanks to the final `1.5 × stop_loss` forcing step. -/
theorem calculate_dynamic_targets_profit_gt_stop (cfg : AIParameters)
    (confidence volatility : ℚ) (market_regime : MarketRegime) (riskReward : ℚ) :
    (calculate_dynamic_targets cfg confidence volatility market_regime riskReward).2
        < (calculate_dynamic_targets cfg confidence volatility market_regime riskReward).1 ∧
    1/100 ≤ (calculate_dynamic_targets cfg confidence volatility market_regime riskReward).2 ∧
    (calculate_dynamic_targets cfg confidence volatility market_regime riskReward).2 ≤ 8/100 ∧
    2/100 ≤ (calculate_dynamic_targets cfg confidence volatility market_regime riskReward).1 ∧
    (calculate_dynamic_targets cfg confidence volatility market_regime riskReward).1 ≤ 15/100 := by
  have h := clamp_force_bounds
    (cfg.base_profit_target_pct * (1/2 + confidence * (3/2)) * (8/10 + volatility * 2) *
      regimeMultiplier market_regime * min (3/2) (max (1/2) (riskReward / 2)))
    (cfg.base_stop_loss_pct * (1/2 + confidence * (3/2)) * (8/10 + volatility * 2) *
      regimeMultiplier market_regime)
    _ _ _ rfl rfl rfl
  simpa [calculate_dynamic_targets] using h

/-- One entry of the `self.positions` dictionary.  The keys
`trailing_stop_active`, `trailing_stop_distance` and `highest_price` are set
by the new-position branch of `update_position` but are absent from the
record built by its add-to-existing branch, so they are `Option`s (absent
key = `none`); the remaining keys are written by both branches, so they are
plain fields (in particular the `position.get('stop_loss', ...)` default in
`update_trailing_stop` can never fire on a record built by
`update_position`).  Entry times are opaque timestamps, modelled as `ℕ`. -/
structure Position where
  quantity : ℚ
  avg_price : ℚ
  entry_time : ℕ
  profit_target_pct : ℚ
  stop_loss_pct : ℚ
  stop_loss : ℚ
  take_profit : ℚ
  trailing_stop_active : Option Bool
  trailing_stop_distance : Option ℚ
  highest_price : Option ℚ
deriving DecidableEq, Repr

/-- `AITradingBot.update_position` for one symbol: `existing` is
`self.positions.get(symbol)` and the result is the record stored back.
`now` is `datetime.now(timezone.utc)` at the call.  The source reads the
existing targets with `existing.get('profit_target_pct', profit_target_pct)`
(same for the stop); both keys are always present on records this function
builds, so the embedding reads the fields directly. -/
def update_position (existing : Option Position) (quantity price : ℚ)
    (profit_target_pct stop_loss_pct : ℚ) (now : ℕ) : Position :=
  match existing with
  | some ex =>
      let total_quantity := ex.quantity + quantity
      let total_value := ex.quantity * ex.avg_price + quantity * price
      let new_avg_price := total_value / total_quantity
      { quantity := total_quantity
        avg_price := new_avg_price
        entry_time := ex.entry_time
        profit_target_pct := max ex.profit_target_pct profit_target_pct
        stop_loss_pct := min ex.stop_loss_pct stop_loss_pct
        stop_loss := price * (1 - stop_loss_pct)
        take_profit := price * (1 + profit_target_pct)
        trailing_stop_active := none
        trailing_stop_distance := none
        highest_price := none }
  | none =>
      { quantity := quantity
        avg_price := price
        entry_time := now
        profit_target_pct := profit_target_pct
        stop_loss_pct := stop_loss_pct
        stop_loss := price * (1 - stop_loss_pct)
        take_profit := price * (1 + profit_target_pct)
        trailing_stop_active := some false
        trailing_stop_distance := some stop_loss_pct
        highest_price := some price }

/-- `AITradingBot.update_trailing_stop` acting on one position record
(the source mutates `self.positions[symbol]` in place; the `if symbol not
in self.positions: return` guard is the `Option` lookup at the call site).
The source sets `trailing_stop_active` to `True` whenever the profit
threshold holds (the `if not ...get('trailing_stop_active', False)` test
only gates a log line). -/
def update_trailing_stop (p : Position) (current_price : ℚ) : Position :=
  let entry_price := p.avg_price
  let profit_pct := (current_price - entry_price) / entry_price
  if profit_pct > 2/100 then
    let p1 := { p with trailing_stop_active := some true }
    if current_price > p1.highest_price.getD entry_price then
      let p2 := { p1 with highest_price := some current_price }
      let trailing_distance := p2.trailing_stop_distance.getD (2/100)
      let new_stop_price := current_price * (1 - trailing_distance)
      if new_stop_price > p2.stop_loss then
        { p2 with stop_loss := new_stop_price, stop_loss_pct := trailing_distance }
      else p2
    else p1
  else p

/-- The high-water mark a later `update_trailing_stop` call observes:
`position.get('highest_price', entry_price)`. -/
def highWaterMark (p : Position) : ℚ := p.highest_price.getD p.avg_price

/-- A single `update_trailing_stop` call never lowers the stored stop. -/
lemma update_trailing_stop_stop_le (p : Position) (c : ℚ) :
    p.stop_loss ≤ (update_trailing_stop p c).stop_loss := by
  simp only [update_trailing_stop]
  split_ifs with h1 h2 h3 <;> simp_all
  linarith

/-- The stored stop is non-decreasing across any sequence of
`update_trailing_stop` calls. -/
lemma foldl_update_trailing_stop_stop_le (p : Position) (cs : List ℚ) :
    p.stop_loss ≤ (cs.foldl update_trailing_stop p).stop_loss := by
  induction cs generalizing p with
  | nil => simp
  | cons c cs ih =>
      simpa using le_trans (update_trailing_stop_stop_le p c) (ih (update_trailing_stop p c))

/-- C2: across any sequence of `update_trailing_stop` calls (no intervening
adds) the stored stop price is monotonically non-decreasing; trailing
activates as soon as unrealized gain exceeds 2%; and in any single call
the stop either stays put or is raised to
`current_price × (1 − trailing_distance)`, and a raise happens only when
that value is strictly above the existing stop. -/
theorem update_trailing_stop_monotone (p : Position) (prices : List ℚ) (c : ℚ) :
    p.stop_loss ≤ (prices.foldl update_trailing_stop p).stop_loss ∧
    ((c - p.avg_price) / p.avg_price > 2/100 →
      (update_trailing_stop p c).trailing_stop_active = some true) ∧
    ((update_trailing_stop p c).stop_loss = p.stop_loss ∨
      ((update_trailing_stop p c).stop_loss
          = c * (1 - p.trailing_stop_distance.getD (2/100)) ∧
        p.stop_loss < (update_trailing_stop p c).stop_loss)) := by
  refine ⟨foldl_update_trailing_stop_stop_le p prices, ?_, ?_⟩
  · intro h
    simp only [update_trailing_stop]
    rw [if_pos h]
    split_ifs <;> rfl
  · simp only [update_trailing_stop]
    split_ifs with h1 h2 h3
    · exact Or.inr ⟨rfl, by simpa using h3⟩
    · exact Or.inl rfl
    · exact Or.inl rfl
    · exact Or.inl rfl

/-- Concrete position used to exercise the trailing-stop theorems:
0.1 BTC opened at 100 with a 3% target and 2% stop. -/
def tsPos : Position := update_position none (1/10) 100 (3/100) (2/100) 0

/-- Witness for C2 at a concrete input: at price 105 the unrealized gain
on `tsPos` is 5% > 2%, and the call indeed activates trailing. -/
theorem update_trailing_stop_monotone_witness :
    ((105 - tsPos.avg_price) / tsPos.avg_price > 2/100) ∧
    (update_trailing_stop tsPos 105).trailing_stop_active = some true := by
  have h : ((105 : ℚ) - tsPos.avg_price) / tsPos.avg_price > 2/100 := by
    norm_num [tsPos, update_position]
  exact ⟨h, (update_trailing_stop_monotone tsPos [] 105).2.1 h⟩

/-- A single `update_trailing_stop` call never lowers the observed
high-water mark (the average price is unchanged by the call, so the
`getD` default base is stable). -/
lemma update_trailing_stop_hwm_le (p : Position) (c : ℚ) :
    highWaterMark p ≤ highWaterMark (update_trailing_stop p c) := by
  simp only [update_trailing_stop, highWaterMark]
  split_ifs with h1 h2 h3 <;> simp_all <;> linarith

/-- Amended C3: the high-water mark is monotonically non-decreasing across
any sequence of `update_trailing_stop` calls.  (It is *not* preserved by a
same-direction add: `update_position`'s add branch rebuilds the record
without the `highest_price` key — see the counterexample.) -/
theorem highWaterMark_monotone_trailing (p : Position) (prices : List ℚ) :
    highWaterMark p ≤ highWaterMark (prices.foldl update_trailing_stop p) := by
  induction prices generalizing p with
  | nil => simp
  | cons c cs ih =>
      simpa using le_trans (update_trailing_stop_hwm_le p c) (ih (update_trailing_stop p c))

/-- Open 0.1 units at 100. -/
def hwPos0 : Position := update_position none (1/10) 100 (3/100) (2/100) 0

/-- Price runs to 150: the high-water mark becomes 150. -/
def hwPos1 : Position := update_trailing_stop hwPos0 150

/-- Same-direction add of 0.05 units at 110. -/
def hwPos2 : Position := update_position (some hwPos1) (1/20) 110 (3/100) (2/100) 7

/-- Next trailing update at price 120. -/
def hwPos3 : Position := update_trailing_stop hwPos2 120

/-- Counterexample to C3 as stated: after the price reaches 150 the
position's `highest_price` is 150, but a same-direction add via
`update_position` drops the key and the next trailing update at price 120
re-creates it at 120 < 150 — the high-water mark decreased across a
sequence of operations on an open position that includes an add. -/
theorem highest_price_decreases_after_add :
    hwPos1.highest_price = some 150 ∧
    hwPos2.highest_price = none ∧
    hwPos3.highest_price = some 120 ∧ (120 : ℚ) < 150 := by
  refine ⟨?_, ?_, ?_, by norm_num⟩ <;>
    norm_num [hwPos1, hwPos2, hwPos3, hwPos0, update_position, update_trailing_stop]

/-- C6: opening a fresh position and then adding to it yields the
volume-weighted average entry price, the total quantity, the original entry
time, the max of the two profit targets and the min of the two stops; and
concretely 0.1 units at 50000 plus 0.05 units at 52000 average to
152000/3 ≈ 50666.67. -/
theorem update_position_add_spec :
    (∀ (q1 p1 pt1 sl1 q2 p2 pt2 sl2 : ℚ) (t t' : ℕ),
      let pos1 := update_position none q1 p1 pt1 sl1 t
      let pos2 := update_position (some pos1) q2 p2 pt2 sl2 t'
      pos2.avg_price = (q1 * p1 + q2 * p2) / (q1 + q2) ∧
      pos2.quantity = q1 + q2 ∧
      pos2.entry_time = t ∧
      pos2.profit_target_pct = max pt1 pt2 ∧
      pos2.stop_loss_pct = min sl1 sl2) ∧
    (update_position (some (update_position none (1/10) 50000 (8/100) (3/100) 0))
        (1/20) 52000 (1/10) (1/40) 9).avg_price = 152000 / 3 := by
  constructor
  · intro q1 p1 pt1 sl1 q2 p2 pt2 sl2 t t'
    exact ⟨rfl, rfl, rfl, rfl, rfl⟩
  · norm_num [update_position]

/-- The dictionary returned by a successful `fetch_account_balance`. -/
structure BalanceInfo where
  equity : ℚ
  free_balance : ℚ
  total_balance : ℚ
deriving DecidableEq, Repr

/-- The bot state consulted by the risk checks.  `exchange` models whether
`self.exchange` is set; `balanceResp` is the outcome of
`self.exchange.fetch_balance()` as the pair (total USDT, free USDT), with
`none` for a raised exception; `positions` is the `self.positions`
dictionary as an association list. -/
structure BotState where
  exchange : Bool
  balanceResp : Option (ℚ × ℚ)
  positions : List (String × Position)
  daily_start_balance : ℚ
  cfg : AIParameters

/-- `AITradingBot.fetch_account_balance`: returns the balance dictionary
only when an exchange is connected, the request succeeds and the total
balance is positive; every other path falls through to `None`. -/
def fetch_account_balance (s : BotState) : Option BalanceInfo :=
  if s.exchange then
    match s.balanceResp with
    | some (total_balance, usdt_balance) =>
        if total_balance > 0 then
          some { equity := total_balance
                 free_balance := usdt_balance
                 total_balance := total_balance }
        else none
    | none => none
  else none

/-- `AITradingBot.check_daily_loss_limit`. -/
def check_daily_loss_limit (s : BotState) : Bool :=
  if s.daily_start_balance ≤ 0 then false
  else
    match fetch_account_balance s with
    | none => false
    | some current_balance =>
        if current_balance.equity ≤ 0 then false
        else
          let daily_loss_pct :=
            (s.daily_start_balance - current_balance.equity) / s.daily_start_balance
          if daily_loss_pct ≥ s.cfg.max_daily_loss_pct then true else false

/-- Value of one position as summed by `calculate_total_exposure`
(the `'quantity' in position and 'avg_price' in position` guard is always
true for records built by `update_position`, whose fields are mandatory
here). -/
def positionValue (p : Position) : ℚ := p.quantity * p.avg_price

/-- `AITradingBot.calculate_total_exposure`: sums `quantity * avg_price`
over all open positions and divides by the fetched equity; any fetch
failure (and the empty-positions early return) yields `0.0`, never an
exception. -/
def calculate_total_exposure (s : BotState) : ℚ :=
  if s.positions.isEmpty then 0
  else
    let total_exposure := (s.positions.map (fun kv => positionValue kv.2)).sum
    match fetch_account_balance s with
    | some balance_info =>
        if balance_info.equity > 0 then total_exposure / balance_info.equity else 0
    | none => 0

/-- `AITradingBot.can_open_new_position`.  The source returns `False` early
when `self.exchange` is unset (`if not self.exchange: return False`), then
checks the daily loss limit, the per-symbol position count and the total
exposure; the surrounding `try/except` returns `False` on any error. -/
def can_open_new_position (s : BotState) (symbol : String) : Bool :=
  if s.exchange then
    if check_daily_loss_limit s then false
    else
      let position_count := s.positions.countP (fun kv => kv.1 == symbol)
      if position_count ≥ s.cfg.max_positions_per_coin then false
      else if calculate_total_exposure s ≥ s.cfg.max_total_exposure_pct then false
      else true
  else false

/-- A successful fetch always reports strictly positive equity. -/
lemma fetch_account_balance_pos (s : BotState) (b : BalanceInfo)
    (h : fetch_account_balance s = some b) : 0 < b.equity := by
  unfold fetch_account_balance at h
  by_cases h1 : s.exchange = true
  · rw [if_pos h1] at h
    cases hr : s.balanceResp with
    | none => rw [hr] at h; exact (Option.noConfusion h)
    | some tf =>
        obtain ⟨t, f⟩ := tf
        rw [hr] at h
        dsimp only at h
        by_cases ht : t > 0
        · rw [if_pos ht] at h
          cases h
          exact ht
        · rw [if_neg ht] at h
          cases h
  · rw [if_neg h1] at h
    cases h

/-- A non-positive reported total makes the fetch return `None`. -/
lemma fetch_account_balance_nonpos (s : BotState) (t f : ℚ)
    (hr : s.balanceResp = some (t, f)) (ht : t ≤ 0) :
    fetch_account_balance s = none := by
  unfold fetch_account_balance
  split_ifs with h1
  · rw [hr]
    simp [not_lt.mpr ht]
  · rfl

/-- C5: whenever the daily start balance is positive and the balance fetch
succeeds (so equity is positive), `check_daily_loss_limit` returns `true`
exactly when `(daily_start_equity − current_equity) / daily_start_equity`
is at least `max_daily_loss_pct`. -/
theorem check_daily_loss_limit_iff (s : BotState) (b : BalanceInfo)
    (hstart : 0 < s.daily_start_balance)
    (hfetch : fetch_account_balance s = some b) :
    (check_daily_loss_limit s = true ↔
      s.cfg.max_daily_loss_pct
        ≤ (s.daily_start_balance - b.equity) / s.daily_start_balance) := by
  have hb := fetch_account_balance_pos s b hfetch
  unfold check_daily_loss_limit
  rw [hfetch]
  simp only [not_le.mpr hstart, ite_false, not_le.mpr hb, if_false]
  split_ifs with h
  · simpa using h
  · simpa using h

/-- State matching the spec's worked example: daily start equity 10000,
current equity 9400, default parameters (5% daily-loss limit). -/
def lossState : BotState :=
  { exchange := true
    balanceResp := some (9400, 9400)
    positions := []
    daily_start_balance := 10000
    cfg := defaultParameters }

/-- Witness for C5: with start equity 10000 and current equity 9400 under
the default 5% limit, the 6% loss makes `check_daily_loss_limit` true. -/
theorem check_daily_loss_limit_iff_witness :
    0 < lossState.daily_start_balance ∧
    fetch_account_balance lossState = some ⟨9400, 9400, 9400⟩ ∧
    check_daily_loss_limit lossState = true := by
  refine ⟨by norm_num [lossState], by decide, ?_⟩
  exact (check_daily_loss_limit_iff lossState ⟨9400, 9400, 9400⟩
    (by norm_num [lossState]) (by decide)).mpr (by norm_num [lossState, defaultParameters])

/-- C10: the daily-loss kill-switch never engages when equity cannot be
measured: `check_daily_loss_limit` is `false` whenever the daily start
balance is non-positive, the balance fetch fails, or the exchange reports
a non-positive total. -/
theorem check_daily_loss_limit_fail_open (s : BotState) :
    (s.daily_start_balance ≤ 0 → check_daily_loss_limit s = false) ∧
    (fetch_account_balance s = none → check_daily_loss_limit s = false) ∧
    (∀ t f, s.balanceResp = some (t, f) → t ≤ 0 → check_daily_loss_limit s = false) := by
  refine ⟨?_, ?_, ?_⟩
  · intro h
    unfold check_daily_loss_limit
    rw [if_pos h]
  · intro h
    unfold check_daily_loss_limit
    rw [h]
    split_ifs <;> rfl
  · intro t f hr ht
    unfold check_daily_loss_limit
    rw [fetch_account_balance_nonpos s t f hr ht]
    split_ifs <;> rfl

/-- Bot state with an open position but a failing balance request. -/
def noBalanceState : BotState :=
  { exchange := true
    balanceResp := none
    positions := [("BTC/USDT", update_position none (1/10) 50000 (3/100) (2/100) 0)]
    daily_start_balance := 10000
    cfg := defaultParameters }

/-- Witness for C10: with a failing balance fetch (and an open position and
positive start balance) the daily-loss gate stays disengaged. -/
theorem check_daily_loss_limit_fail_open_witness :
    fetch_account_balance noBalanceState = none ∧
    check_daily_loss_limit noBalanceState = false :=
  ⟨by decide, (check_daily_loss_limit_fail_open noBalanceState).2.1 (by decide)⟩

/-- C9: `calculate_total_exposure` returns exactly `0` when the balance
fetch fails or the exchange reports a non-positive total, and returns the
summed `quantity × avg_price` of all open positions divided by the fetched
equity when the fetch succeeds. -/
theorem calculate_total_exposure_spec (s : BotState) :
    (fetch_account_balance s = none → calculate_total_exposure s = 0) ∧
    (∀ t f, s.balanceResp = some (t, f) → t ≤ 0 → calculate_total_exposure s = 0) ∧
    (∀ b, fetch_account_balance s = some b →
      calculate_total_exposure s
        = (s.positions.map (fun kv => positionValue kv.2)).sum / b.equity) := by
  refine ⟨?_, ?_, ?_⟩
  · intro h
    unfold calculate_total_exposure
    rw [h]
    split_ifs <;> rfl
  · intro t f hr ht
    unfold calculate_total_exposure
    rw [fetch_account_balance_nonpos s t f hr ht]
    split_ifs <;> rfl
  · intro b hfetch
    have hb := fetch_account_balance_pos s b hfetch
    unfold calculate_total_exposure
    rw [hfetch]
    split_ifs with hemp
    · simp only [List.isEmpty_iff] at hemp
      rw [hemp]
      simp
    · simp [hb]

/-- Witness for C9, failure side: the state with an open 0.1 × 50000
position but a failing fetch reports zero exposure rather than raising. -/
theorem calculate_total_exposure_spec_witness :
    fetch_account_balance noBalanceState = none ∧
    calculate_total_exposure noBalanceState = 0 :=
  ⟨by decide, (calculate_total_exposure_spec noBalanceState).1 (by decide)⟩

/-- Amended C4: `can_open_new_position` returns `true` exactly when an
exchange connection exists, the daily-loss limit is not breached, the
per-symbol position count is below the configured maximum, and total
exposure is below the configured maximum; it is `false` in every other
case (in particular independently of confidence or signal strength, which
it never reads). -/
theorem can_open_new_position_iff (s : BotState) (symbol : String) :
    can_open_new_position s symbol = true ↔
      (s.exchange = true ∧ check_daily_loss_limit s = false ∧
        s.positions.countP (fun kv => kv.1 == symbol) < s.cfg.max_positions_per_coin ∧
        calculate_total_exposure s < s.cfg.max_total_exposure_pct) := by
  unfold can_open_new_position
  by_cases h1 : s.exchange = true
  · rw [if_pos h1]
    by_cases h2 : check_daily_loss_limit s = true
    · simp [h2]
    · simp only [Bool.not_eq_true] at h2
      rw [h2]
      simp only [Bool.false_eq_true, if_false]
      by_cases h3 : s.positions.countP (fun kv => kv.1 == symbol)
          ≥ s.cfg.max_positions_per_coin
      · rw [if_pos h3]
        simp only [Bool.false_eq_true, false_iff]
        rintro ⟨-, -, hlt, -⟩
        omega
      · rw [if_neg h3]
        by_cases h4 : calculate_total_exposure s ≥ s.cfg.max_total_exposure_pct
        · rw [if_pos h4]
          simp only [Bool.false_eq_true, false_iff]
          rintro ⟨-, -, -, hlt⟩
          exact absurd h4 (not_le.mpr hlt)
        · rw [if_neg h4]
          push_neg at h3 h4
          simp [h1, h2, h3, h4]
  · rw [if_neg h1]
    simp [h1]

/-- A disconnected bot with no positions and no breached limit. -/
def offlineState : BotState :=
  { exchange := false
    balanceResp := none
    positions := []
    daily_start_balance := 0
    cfg := defaultParameters }

/-- Counterexample to C4 as stated: in `offlineState` the daily-loss limit
is not breached, the per-symbol count (0) is below the maximum (2) and the
exposure (0) is below the maximum (0.8), yet `can_open_new_position`
returns `false`, because the source also requires an exchange connection
(`if not self.exchange: return False`). -/
theorem can_open_new_position_counterexample :
    check_daily_loss_limit offlineState = false ∧
    offlineState.positions.countP (fun kv => kv.1 == "BTC/USDT")
      < offlineState.cfg.max_positions_per_coin ∧
    calculate_total_exposure offlineState < offlineState.cfg.max_total_exposure_pct ∧
    can_open_new_position offlineState "BTC/USDT" = false := by
  have hexp : calculate_total_exposure offlineState = 0 := rfl
  refine ⟨by decide, by decide, ?_, by decide⟩
  rw [hexp]
  norm_num [offlineState, defaultParameters]

/-- The last-row indicator values read by the decision block of
`analyze_coin_ai` (`recent = df.tail(1).iloc[0]`).  A `NaN` cell (the
`pd.isna` guards) is modelled as `none`. -/
structure IndicatorSnapshot where
  sma_5 : Option ℚ
  sma_20 : Option ℚ
  rsi : Option ℚ
  macd : Option ℚ
  macd_signal : Option ℚ
  bb_position : Option ℚ
  volume_rel : Option ℚ
  regime : MarketRegime

/-- Trend contribution (SMA5 vs SMA20): +0.3 / −0.2, skipped on NaN. -/
def trendScore (s : IndicatorSnapshot) : ℚ :=
  match s.sma_5, s.sma_20 with
  | some sma_5, some sma_20 => if sma_5 > sma_20 then 3/10 else -(2/10)
  | _, _ => 0

/-- RSI contribution: +0.2 below 30, −0.2 above 70, +0.1 otherwise. -/
def rsiScore (s : IndicatorSnapshot) : ℚ :=
  match s.rsi with
  | some rsi => if rsi < 30 then 2/10 else if rsi > 70 then -(2/10) else 1/10
  | none => 0

/-- MACD contribution: +0.25 when MACD is above its signal, else −0.15. -/
def macdScore (s : IndicatorSnapshot) : ℚ :=
  match s.macd, s.macd_signal with
  | some macd, some macd_signal => if macd > macd_signal then 25/100 else -(15/100)
  | _, _ => 0

/-- Bollinger-position contribution: +0.25 below 0.2, −0.25 above 0.8,
+0.1 otherwise. -/
def bbScore (s : IndicatorSnapshot) : ℚ :=
  match s.bb_position with
  | some bb_position =>
      if bb_position < 2/10 then 25/100
      else if bb_position > 8/10 then -(25/100)
      else 1/10
  | none => 0

/-- Volume contribution: +0.1 when the volume/SMA ratio exceeds 1.2. -/
def volumeScore (s : IndicatorSnapshot) : ℚ :=
  match s.volume_rel with
  | some v => if v > 12/10 then 1/10 else 0
  | none => 0

/-- The confidence accumulated by the indicator comparisons of
`analyze_coin_ai` before the market-regime adjustment (the source starts
at `0.0` and adds each term in this order). -/
def indicatorScore (s : IndicatorSnapshot) : ℚ :=
  trendScore s + rsiScore s + macdScore s + bbScore s + volumeScore s

/-- The market-regime adjustment applied to the accumulated sum:
`+0.1` in BULL, `−0.1` in BEAR, `× 0.8` in VOLATILE, unchanged in
SIDEWAYS. -/
def aiConfidence (s : IndicatorSnapshot) : ℚ :=
  let confidence := indicatorScore s
  match s.regime with
  | .bull => confidence + 1/10
  | .bear => confidence - 1/10
  | .volatile => confidence * (8/10)
  | .sideways => confidence

/-- The action selection of `analyze_coin_ai`: BUY above the threshold,
SELL below its negation, HOLD otherwise. -/
def decideAction (threshold confidence : ℚ) : Action :=
  if confidence > threshold then .buy
  else if confidence < -threshold then .sell
  else .hold

/-- The (action, reported confidence) pair of the resulting
`TradingDecision`: the source stores `confidence=abs(confidence)`. -/
def aiDecision (threshold : ℚ) (s : IndicatorSnapshot) : Action × ℚ :=
  (decideAction threshold (aiConfidence s), |aiConfidence s|)

/-- C7: for a non-negative confidence threshold, the final action is BUY
exactly when the accumulated score exceeds the threshold, SELL exactly when
it is below the negated threshold, and HOLD exactly otherwise; the reported
confidence is the absolute value of the accumulated score; and in a
VOLATILE regime the accumulated sum (not the individual terms) is
multiplied by 0.8 before the comparison. -/
theorem aiDecision_spec (threshold : ℚ) (s : IndicatorSnapshot)
    (h : 0 ≤ threshold) :
    ((aiDecision threshold s).1 = .buy ↔ threshold < aiConfidence s) ∧
    ((aiDecision threshold s).1 = .sell ↔ aiConfidence s < -threshold) ∧
    ((aiDecision threshold s).1 = .hold ↔
      (-threshold ≤ aiConfidence s ∧ aiConfidence s ≤ threshold)) ∧
    (aiDecision threshold s).2 = |aiConfidence s| ∧
    (s.regime = .volatile → aiConfidence s = indicatorScore s * (8/10)) := by
  refine ⟨?_, ?_, ?_, rfl, ?_⟩
  · unfold aiDecision decideAction
    split_ifs with hb hs
    · exact iff_of_true rfl hb
    · exact iff_of_false (by decide) (not_lt.mpr (by linarith))
    · exact iff_of_false (by decide) hb
  · unfold aiDecision decideAction
    split_ifs with hb hs
    · exact iff_of_false (by decide) (not_lt.mpr (by linarith))
    · exact iff_of_true rfl hs
    · exact iff_of_false (by decide) hs
  · unfold aiDecision decideAction
    split_ifs with hb hs
    · exact iff_of_false (by decide) (fun hc => absurd hb (not_lt.mpr hc.2))
    · exact iff_of_false (by decide)
        (fun hc => absurd hs (not_lt.mpr (by linarith [hc.1])))
    · push_neg at hb hs
      exact iff_of_true rfl ⟨by linarith, hb⟩
  · intro hr
    unfold aiConfidence
    rw [hr]

/-- A fully bullish snapshot: uptrend, neutral RSI, bullish MACD, middle
band, high volume, bull regime — accumulated score
0.3 + 0.1 + 0.25 + 0.1 + 0.1 + 0.1 = 0.95. -/
def bullSnapshot : IndicatorSnapshot :=
  { sma_5 := some 105
    sma_20 := some 100
    rsi := some 50
    macd := some 2
    macd_signal := some 1
    bb_position := some (1/2)
    volume_rel := some (3/2)
    regime := .bull }

/-- Witness for C7: with the default 0.49 threshold the bullish snapshot
scores 0.95 and the decision is BUY. -/
theorem aiDecision_spec_witness :
    (0 : ℚ) ≤ 49/100 ∧ (aiDecision (49/100) bullSnapshot).1 = .buy := by
  refine ⟨by norm_num, ?_⟩
  refine ((aiDecision_spec (49/100) bullSnapshot (by norm_num)).1).mpr ?_
  norm_num [aiConfidence, indicatorScore, trendScore, rsiScore, macdScore, bbScore,
    volumeScore, bullSnapshot]

/-- The last-window values read by `detect_market_regime` from the
indicator dataframe: `length` is `len(df)`; `sma_20`, `current_price`,
`volatility` and `bb_width` are the final-row values; `sma_50` is `none`
when the final `sma_50` cell is NaN (the source then falls back to
`sma_20`); `avg_volume` / `recent_volume` are the 20-candle and 5-candle
volume means. -/
structure RegimeWindow where
  length : ℕ
  sma_20 : ℚ
  sma_50 : Option ℚ
  current_price : ℚ
  volatility : ℚ
  bb_width : ℚ
  avg_volume : ℚ
  recent_volume : ℚ

/-- `AITradingBot.detect_market_regime` (`df.empty or len(df) < 50` is the
length guard; `volume_trend` defaults to 1 when the average volume is not
positive). -/
def detect_market_regime (d : RegimeWindow) : MarketRegime :=
  if d.length < 50 then .sideways
  else
    let sma_20 := d.sma_20
    let sma_50 := d.sma_50.getD d.sma_20
    let volume_trend := if d.avg_volume > 0 then d.recent_volume / d.avg_volume else 1
    if d.volatility > 5/100 ∨ d.bb_width > 1/10 then .volatile
    else if d.current_price > sma_20 ∧ sma_20 > sma_50 ∧ volume_trend > 12/10 then .bull
    else if d.current_price < sma_20 ∧ sma_20 < sma_50 ∧ volume_trend > 12/10 then .bear
    else .sideways

/-- C8: with at least 50 candles, the regime decision applies a fixed
order — the volatility/band-width test first (so VOLATILE overrides any
price/SMA ordering), then price above SMA20 above SMA50 with volume
confirmation for BULL, then the mirrored ordering for BEAR, and SIDEWAYS
in every remaining case. -/
theorem detect_market_regime_spec (d : RegimeWindow) (hlen : 50 ≤ d.length) :
    (detect_market_regime d = .volatile ↔
      (d.volatility > 5/100 ∨ d.bb_width > 1/10)) ∧
    (detect_market_regime d = .bull ↔
      (¬(d.volatility > 5/100 ∨ d.bb_width > 1/10) ∧
        d.current_price > d.sma_20 ∧ d.sma_20 > d.sma_50.getD d.sma_20 ∧
        (if d.avg_volume > 0 then d.recent_volume / d.avg_volume else 1) > 12/10)) ∧
    (detect_market_regime d = .bear ↔
      (¬(d.volatility > 5/100 ∨ d.bb_width > 1/10) ∧
        ¬(d.current_price > d.sma_20 ∧ d.sma_20 > d.sma_50.getD d.sma_20 ∧
          (if d.avg_volume > 0 then d.recent_volume / d.avg_volume else 1) > 12/10) ∧
        d.current_price < d.sma_20 ∧ d.sma_20 < d.sma_50.getD d.sma_20 ∧
        (if d.avg_volume > 0 then d.recent_volume / d.avg_volume else 1) > 12/10)) ∧
    (detect_market_regime d = .sideways ↔
      (¬(d.volatility > 5/100 ∨ d.bb_width > 1/10) ∧
        ¬(d.current_price > d.sma_20 ∧ d.sma_20 > d.sma_50.getD d.sma_20 ∧
          (if d.avg_volume > 0 then d.recent_volume / d.avg_volume else 1) > 12/10) ∧
        ¬(d.current_price < d.sma_20 ∧ d.sma_20 < d.sma_50.getD d.sma_20 ∧
          (if d.avg_volume > 0 then d.recent_volume / d.avg_volume else 1) > 12/10))) := by
  simp only [detect_market_regime]
  rw [if_neg (by omega)]
  by_cases hv : d.volatility > 5/100 ∨ d.bb_width > 1/10
  · rw [if_pos hv]
    exact ⟨iff_of_true rfl hv,
      iff_of_false (by decide) (fun hc => hc.1 hv),
      iff_of_false (by decide) (fun hc => hc.1 hv),
      iff_of_false (by decide) (fun hc => hc.1 hv)⟩
  · rw [if_neg hv]
    by_cases hbull : d.current_price > d.sma_20 ∧ d.sma_20 > d.sma_50.getD d.sma_20 ∧
        (if d.avg_volume > 0 then d.recent_volume / d.avg_volume else 1) > 12/10
    · rw [if_pos hbull]
      exact ⟨iff_of_false (by decide) hv,
        iff_of_true rfl ⟨hv, hbull.1, hbull.2.1, hbull.2.2⟩,
        iff_of_false (by decide) (fun hc => hc.2.1 hbull),
        iff_of_false (by decide) (fun hc => hc.2.1 hbull)⟩
    · rw [if_neg hbull]
      by_cases hbear : d.current_price < d.sma_20 ∧ d.sma_20 < d.sma_50.getD d.sma_20 ∧
          (if d.avg_volume > 0 then d.recent_volume / d.avg_volume else 1) > 12/10
      · rw [if_pos hbear]
        exact ⟨iff_of_false (by decide) hv,
          iff_of_false (by decide) (fun hc => hbull hc.2),
          iff_of_true rfl ⟨hv, hbull, hbear.1, hbear.2.1, hbear.2.2⟩,
          iff_of_false (by decide) (fun hc => hc.2.2 hbear)⟩
      · rw [if_neg hbear]
        exact ⟨iff_of_false (by decide) hv,
          iff_of_false (by decide) (fun hc => hbull hc.2),
          iff_of_false (by decide) (fun hc => hbear hc.2.2),
          iff_of_true rfl ⟨hv, hbull, hbear⟩⟩

/-- A window whose trend data would say BULL (price above SMA20 above
SMA50 with a 2× volume trend) but whose volatility is above the 5%
threshold. -/
def volatileBullWindow : RegimeWindow :=
  { length := 60
    sma_20 := 100
    sma_50 := some 90
    current_price := 110
    volatility := 6/100
    bb_width := 5/100
    avg_volume := 1000
    recent_volume := 2000 }

/-- Witness for C8: the volatility test overrides the bullish price/SMA
ordering — `volatileBullWindow` classifies as VOLATILE. -/
theorem detect_market_regime_spec_witness :
    50 ≤ volatileBullWindow.length ∧
    detect_market_regime volatileBullWindow = .volatile := by
  refine ⟨by norm_num [volatileBullWindow], ?_⟩
  refine ((detect_market_regime_spec volatileBullWindow
    (by norm_num [volatileBullWindow])).1).mpr ?_
  norm_num [volatileBullWindow]

end AITradingBot
